import Mathlib

set_option autoImplicit false

/-!
Shallow embedding of the edu-tests-platform assessment engine
(src/profile/student/{models,repository,services}.py and
src/profile/teacher/{models,repository,services,schemas}.py).

Database rows are modelled arena-style: one list per table, ids as `Nat`
(UUIDs and integer pks are both opaque identifiers here).  SQLAlchemy
relationship accessors become lookups over those lists.  Newly inserted
rows receive their id as an explicit `new_id` argument (the database
generates them in the source).  Float scores are modelled as `ℚ`.
-/

namespace EduTests

/-- common/enums.py: TestStatus. -/
inductive TestStatus where
  | DRAFT
  | PUBLISHED
  | ARCHIVED
deriving DecidableEq

/-- common/enums.py: TestAttemptStatus. -/
inductive TestAttemptStatus where
  | IN_PROGRESS
  | COMPLETED
deriving DecidableEq

/-- profile/teacher/models.py: Test row (timestamps omitted). -/
structure Test where
  test_id : Nat
  teacher_id : Nat
  title : String
  description : Option String
  image_url : Option String
  status : TestStatus
deriving DecidableEq

/-- profile/teacher/models.py: Question row. -/
structure Question where
  question_id : Nat
  test_id : Nat
  question_text : String
  image_url : Option String
  order : Option Int
  points : Nat
deriving DecidableEq

/-- profile/teacher/models.py: AnswerOption row. -/
structure AnswerOption where
  answer_id : Nat
  question_id : Nat
  answer_text : Option String
  image_url : Option String
  is_correct : Bool
deriving DecidableEq

/-- profile/student/models.py: TestAttempt row (timestamps omitted). -/
structure TestAttempt where
  attempt_id : Nat
  student_id : Nat
  test_id : Nat
  status : TestAttemptStatus
  score : Option ℚ
deriving DecidableEq

/-- profile/student/models.py: StudentAnswer row together with its
student_answer_selected_options association rows (`chosen_options`). -/
structure StudentAnswer where
  student_answer_id : Nat
  attempt_id : Nat
  question_id : Nat
  is_correct : Bool
  chosen_options : List Nat
deriving DecidableEq

/-- The relational state the engine operates on: one list per table. -/
structure DB where
  tests : List Test
  questions : List Question
  answer_options : List AnswerOption
  attempts : List TestAttempt
  student_answers : List StudentAnswer
deriving DecidableEq

/-- The typed failures raised by the services
(profile/student/exceptions.py, profile/teacher/exceptions.py). -/
inductive Err where
  | testNotFound (test_id : Nat)
  | attemptNotFound (attempt_id : Nat)
  | attemptAlreadyFinished (attempt_id : Nat)
  | questionNotFoundInTest (question_id : Nat) (test_id : Nat)
  | activeTestAttemptExists
  | alreadyExists (title : String)
  | notFoundUuid (id : Nat)
deriving DecidableEq

/-- The database state after a service call: exceptions abort before any
write, so an error leaves the state unchanged. -/
def dbAfter {α : Type} (db : DB) (r : Except Err (α × DB)) : DB :=
  match r with
  | .ok (_, db') => db'
  | .error _ => db

/-- StudentRepository.has_active_attempt: EXISTS query over attempts of the
student with status IN_PROGRESS. -/
def hasActiveAttempt (db : DB) (student_id : Nat) : Bool :=
  db.attempts.any (fun a => a.student_id == student_id && a.status == TestAttemptStatus.IN_PROGRESS)

/-- StudentRepository.get_test_for_student_by_id: the test by pk, only if
PUBLISHED. -/
def getTestForStudentById (db : DB) (test_id : Nat) : Option Test :=
  db.tests.find? (fun t => t.test_id == test_id && t.status == TestStatus.PUBLISHED)

/-- StudentRepository.create_test_attempt: INSERT of a fresh attempt, with
the model defaults status=IN_PROGRESS and score NULL. -/
def createTestAttempt (db : DB) (student_id : Nat) (test_id : Nat) (new_id : Nat) :
    TestAttempt × DB :=
  let a : TestAttempt :=
    { attempt_id := new_id, student_id := student_id, test_id := test_id
      status := TestAttemptStatus.IN_PROGRESS, score := none }
  (a, { db with attempts := db.attempts ++ [a] })

/-- StudentServices.start_test. -/
def startTest (db : DB) (student_id : Nat) (test_id : Nat) (new_id : Nat) :
    Except Err (TestAttempt × DB) :=
  if hasActiveAttempt db student_id then
    .error Err.activeTestAttemptExists
  else
    match getTestForStudentById db test_id with
    | none => .error (Err.testNotFound test_id)
    | some _ => .ok (createTestAttempt db student_id test_id new_id)

/-- StudentRepository.get_correct_answers_for_question. -/
def getCorrectAnswersForQuestion (db : DB) (question_id : Nat) : List AnswerOption :=
  db.answer_options.filter (fun o => o.question_id == question_id && o.is_correct)

/-- Lookup of a TestAttempt by pk
(StudentRepository.get_attempt_with_results). -/
def findAttempt (db : DB) (attempt_id : Nat) : Option TestAttempt :=
  db.attempts.find? (fun a => a.attempt_id == attempt_id)

/-- The `Test.questions` relationship: the questions of a test. -/
def testQuestions (db : DB) (test_id : Nat) : List Question :=
  db.questions.filter (fun q => q.test_id == test_id)

/-- The `Question.answer_options` relationship. -/
def questionOptions (db : DB) (question_id : Nat) : List AnswerOption :=
  db.answer_options.filter (fun o => o.question_id == question_id)

/-- Python `set(xs) == set(ys)` on id collections. -/
def eqAsSet (xs ys : List Nat) : Bool :=
  xs.all (fun x => ys.contains x) && ys.all (fun y => xs.contains y)

/-- StudentRepository.save_student_answer, step 2: the SELECT over
AnswerOption with `answer_id IN chosen` — ids matching no row drop out. -/
def fetchChosenOptions (db : DB) (chosen : List Nat) : List AnswerOption :=
  db.answer_options.filter (fun o => chosen.contains o.answer_id)

/-- In-place UPDATE of the single existing StudentAnswer row for the
(attempt, question) pair (the ORM mutates the object found by
`scalar_one_or_none`, hence the first matching row). -/
def updateStudentAnswerRow (sas : List StudentAnswer) (attempt_id question_id : Nat)
    (is_correct : Bool) (chosen_options : List Nat) : List StudentAnswer :=
  match sas with
  | [] => []
  | sa :: rest =>
    if sa.attempt_id == attempt_id && sa.question_id == question_id then
      { sa with is_correct := is_correct, chosen_options := chosen_options } :: rest
    else
      sa :: updateStudentAnswerRow rest attempt_id question_id is_correct chosen_options

/-- StudentRepository.save_student_answer: upsert of the StudentAnswer for
the (attempt, question) pair. -/
def saveStudentAnswer (db : DB) (attempt_id question_id : Nat) (chosen : List Nat)
    (is_correct : Bool) (new_id : Nat) : DB :=
  let chosen_options := (fetchChosenOptions db chosen).map (fun o => o.answer_id)
  match db.student_answers.find?
      (fun sa => sa.attempt_id == attempt_id && sa.question_id == question_id) with
  | some _ =>
    { db with student_answers :=
        updateStudentAnswerRow db.student_answers attempt_id question_id is_correct chosen_options }
  | none =>
    { db with student_answers := db.student_answers ++
        [{ student_answer_id := new_id, attempt_id := attempt_id, question_id := question_id
           is_correct := is_correct, chosen_options := chosen_options }] }

/-- The payload returned by StudentServices.submit_answer. -/
structure SubmitResult where
  is_correct : Bool
  correct_answer_option_ids : List Nat
deriving DecidableEq

/-- StudentServices.submit_answer. -/
def submitAnswer (db : DB) (attempt_id question_id : Nat) (chosen : List Nat) (new_id : Nat) :
    Except Err (SubmitResult × DB) :=
  match findAttempt db attempt_id with
  | none => .error (Err.attemptNotFound attempt_id)
  | some attempt =>
    if attempt.status == TestAttemptStatus.COMPLETED then
      .error (Err.attemptAlreadyFinished attempt_id)
    else
      let correct_answer_ids := (getCorrectAnswersForQuestion db question_id).map
        (fun o => o.answer_id)
      if !(testQuestions db attempt.test_id).any (fun q => q.question_id == question_id) then
        .error (Err.questionNotFoundInTest question_id attempt.test_id)
      else
        let is_correct := eqAsSet chosen correct_answer_ids
        let db' := saveStudentAnswer db attempt_id question_id chosen is_correct new_id
        .ok ({ is_correct := is_correct, correct_answer_option_ids := correct_answer_ids }, db')

/-- `ans.question.points`: the point weight of the question a StudentAnswer
refers to (the FK guarantees presence; a dangling reference contributes 0). -/
def questionPoints (db : DB) (question_id : Nat) : Nat :=
  match db.questions.find? (fun q => q.question_id == question_id) with
  | some q => q.points
  | none => 0

/-- The payload returned by StudentServices.finish_test (timestamps
omitted). -/
structure TestResultOut where
  attempt_id : Nat
  test_id : Nat
  status : TestAttemptStatus
  score : ℚ
  total_possible_points : Nat
  earned_points : Nat
deriving DecidableEq

/-- StudentServices.finish_test. -/
def finishTest (db : DB) (attempt_id : Nat) : Except Err (TestResultOut × DB) :=
  match findAttempt db attempt_id with
  | none => .error (Err.attemptNotFound attempt_id)
  | some attempt =>
    if attempt.status == TestAttemptStatus.COMPLETED then
      .error (Err.attemptAlreadyFinished attempt_id)
    else
      let total_possible_points : Nat := ((testQuestions db attempt.test_id).map
        (fun q => q.points)).sum
      let attempt_answers := db.student_answers.filter
        (fun sa => sa.attempt_id == attempt_id)
      let earned_points : Nat := ((attempt_answers.filter (fun sa => sa.is_correct)).map
        (fun sa => questionPoints db sa.question_id)).sum
      let score_percentage : ℚ :=
        if total_possible_points > 0 then
          ((earned_points : ℚ) / (total_possible_points : ℚ)) * 100
        else 0
      let db' := { db with attempts := db.attempts.map (fun a =>
        if a.attempt_id == attempt_id then
          { a with status := TestAttemptStatus.COMPLETED, score := some score_percentage }
        else a) }
      .ok ({ attempt_id := attempt_id, test_id := attempt.test_id
             status := TestAttemptStatus.COMPLETED, score := score_percentage
             total_possible_points := total_possible_points
             earned_points := earned_points }, db')

/-- TeacherServices.create_test: the INSERT commits unless the database
unique constraint on `tests.title` (models.py declares the title column
`unique=True`, with no per-teacher scoping) is violated; the service maps
that IntegrityError to Conflict(AlreadyExists). The model default supplies
status=DRAFT. -/
def createTest (db : DB) (teacher_id : Nat) (title : String)
    (description image_url : Option String) (new_id : Nat) : Except Err (Test × DB) :=
  if db.tests.any (fun t => t.title == title) then
    .error (Err.alreadyExists title)
  else
    let t : Test :=
      { test_id := new_id, teacher_id := teacher_id, title := title
        description := description, image_url := image_url, status := TestStatus.DRAFT }
    .ok (t, { db with tests := db.tests ++ [t] })

/-- TeacherRepository.get_test_by_id: lookup scoped to the owning teacher. -/
def getTestById (db : DB) (test_id teacher_id : Nat) : Option Test :=
  db.tests.find? (fun t => t.test_id == test_id && t.teacher_id == teacher_id)

/-- The observable actions of TeacherServices.delete_test, in the order the
code performs them: object-storage deletions first, then the database
DELETE of the test row. -/
inductive Event where
  | s3Delete (key : String)
  | dbDeleteTest (test_id : Nat)
deriving DecidableEq

/-- The suffix after the first occurrence of `sep` in `cs`, or `none` when
`sep` does not occur. -/
def suffixAfterFirst (sep : List Char) : List Char → Option (List Char)
  | [] => none
  | c :: cs =>
    if sep.isPrefixOf (c :: cs) then some ((c :: cs).drop sep.length)
    else suffixAfterFirst sep cs

/-- The prefix of `cs` up to (excluding) the next occurrence of `sep`. -/
def prefixUntilSep (sep : List Char) : List Char → List Char
  | [] => []
  | c :: cs =>
    if sep.isPrefixOf (c :: cs) then []
    else c :: prefixUntilSep sep cs

/-- utils/s3.py S3Client.get_key_from_url:
`url.split(bucket + "/")[1]`, i.e. the segment between the first and the
second occurrence of the bucket marker (or the rest of the string when
the marker occurs once); `None` when the marker does not occur. -/
def getKeyFromUrl (bucket url : String) : Option String :=
  ((suffixAfterFirst (bucket ++ "/").toList url.toList).map
    (fun suffix => String.mk (prefixUntilSep (bucket ++ "/").toList suffix)))

/-- One `if image_url: if object_key := get_key_from_url(...): delete_file`
block of TeacherServices.delete_test; Python truthiness skips both the
empty-string url and the empty-string key. -/
def imageEvents (bucket : String) (url : Option String) : List Event :=
  match url with
  | none => []
  | some u =>
    if u == "" then []
    else
      match getKeyFromUrl bucket u with
      | none => []
      | some k => if k == "" then [] else [Event.s3Delete k]

/-- TeacherServices.delete_test: ownership check, then the S3 deletions for
the test image, each question image and each answer-option image, then the
database DELETE (the FK `ondelete=CASCADE` clauses remove the questions,
their answer options, the attempts of the test and their student answers). -/
def deleteTest (db : DB) (bucket : String) (test_id teacher_id : Nat) :
    Except Err (List Event × DB) :=
  match getTestById db test_id teacher_id with
  | none => .error (Err.notFoundUuid test_id)
  | some t =>
    let events :=
      imageEvents bucket t.image_url ++
      (testQuestions db t.test_id).flatMap (fun q =>
        imageEvents bucket q.image_url ++
        (questionOptions db q.question_id).flatMap (fun o => imageEvents bucket o.image_url)) ++
      [Event.dbDeleteTest test_id]
    let deleted_qids := (testQuestions db test_id).map (fun q => q.question_id)
    let deleted_aids := (db.attempts.filter (fun a => a.test_id == test_id)).map
      (fun a => a.attempt_id)
    let db' : DB :=
      { tests := db.tests.filter (fun u => !(u.test_id == test_id && u.teacher_id == teacher_id))
        questions := db.questions.filter (fun q => !(q.test_id == test_id))
        answer_options := db.answer_options.filter
          (fun o => !(deleted_qids.contains o.question_id))
        attempts := db.attempts.filter (fun a => !(a.test_id == test_id))
        student_answers := db.student_answers.filter
          (fun sa => !(deleted_aids.contains sa.attempt_id)) }
    .ok (events, db')

/-- profile/teacher/schemas.py AnswerOptionCreate.check_text_or_image, the
dict branch: rejects a payload in which both answer_text and image_url are
missing or empty (Python falsiness). -/
def check_text_or_image (answer_text image_url : Option String) : Except String Unit :=
  if (answer_text.getD "") == "" && (image_url.getD "") == "" then
    .error "Either answer_text or image_url must be provided"
  else .ok ()

/-- SQL `avg` over the non-NULL scores of a list of attempts: NULL when no
non-NULL value exists. -/
def avgScore (attempts : List TestAttempt) : Option ℚ :=
  let scores := attempts.filterMap (fun a => a.score)
  if scores.isEmpty then none else some (scores.sum / (scores.length : ℚ))

/-- The COMPLETED attempts of a test. -/
def completedAttempts (db : DB) (test_id : Nat) : List TestAttempt :=
  db.attempts.filter (fun a => a.test_id == test_id && a.status == TestAttemptStatus.COMPLETED)

/-- The StudentAnswer rows for a question that were submitted within
COMPLETED attempts of the given test (the join path of the analytics
query: StudentAnswer → TestAttempt → Test). -/
def completedAnswersFor (db : DB) (test_id question_id : Nat) : List StudentAnswer :=
  db.student_answers.filter (fun sa =>
    sa.question_id == question_id &&
    (completedAttempts db test_id).any (fun a => a.attempt_id == sa.attempt_id))

/-- `ORDER BY questions."order"` (ascending, NULLs last). -/
def orderLe (a b : Question) : Prop :=
  match a.order, b.order with
  | some x, some y => x ≤ y
  | some _, none => True
  | none, some _ => False
  | none, none => True

instance : DecidableRel orderLe := fun a b => by
  unfold orderLe
  cases a.order <;> cases b.order <;> infer_instance

instance : IsTotal Question orderLe :=
  ⟨fun a b => by
    unfold orderLe
    cases a.order <;> cases b.order
    · simp
    · simp
    · simp
    · simp; omega⟩

instance : IsTrans Question orderLe :=
  ⟨fun a b c => by
    unfold orderLe
    cases a.order <;> cases b.order <;> cases c.order <;> simp
    omega⟩

/-- Python `needle.lower() in haystack.lower()` / SQL
`lower(text) LIKE '%query%'` (LIKE wildcard characters are not modelled;
the claims instantiate the filter with `none`). -/
def textMatches (question_text : String) (search : Option String) : Bool :=
  match search with
  | none => true
  | some s => (suffixAfterFirst s.toLower.toList question_text.toLower.toList).isSome

/-- One row of the analytics GROUP BY result. -/
structure QuestionAnalyticsRow where
  question_id : Nat
  question_text : String
  correct_answer_percentage : ℚ
deriving DecidableEq

/-- The per-question part of TeacherRepository.get_test_analytics_data:
StudentAnswer ⋈ Question ⋈ TestAttempt ⋈ Test, restricted to COMPLETED
attempts of the teacher's test, grouped by question — so only questions
with at least one such StudentAnswer produce a row — ordered by the
question's display order. -/
def questionAnalyticsRows (db : DB) (test_id : Nat) (search : Option String) :
    List QuestionAnalyticsRow :=
  let answered := db.questions.filter (fun q =>
    !(completedAnswersFor db test_id q.question_id).isEmpty && textMatches q.question_text search)
  (List.insertionSort orderLe answered).map (fun q =>
    let answers := completedAnswersFor db test_id q.question_id
    let total := answers.length
    let correct := (answers.filter (fun sa => sa.is_correct)).length
    { question_id := q.question_id, question_text := q.question_text
      correct_answer_percentage :=
        if total > 0 then ((correct : ℚ) / (total : ℚ)) * 100 else 0 })

/-- TeacherRepository.get_test_analytics_data plus
TeacherServices.get_test_analytics: (total_attempts, average_score,
per-question rows); the attempt aggregate is scoped to the owning teacher
via the join on Test, and a test with zero completed attempts short-circuits
to `(0, none, [])`. -/
def getTestAnalytics (db : DB) (test_id teacher_id : Nat) (search : Option String) :
    Nat × Option ℚ × List QuestionAnalyticsRow :=
  let owned := db.tests.any (fun t => t.test_id == test_id && t.teacher_id == teacher_id)
  let attempts := if owned then completedAttempts db test_id else []
  if attempts.length == 0 then (0, none, [])
  else (attempts.length, avgScore attempts, questionAnalyticsRows db test_id search)

/-- The engine operations quantified over by the invariant claims. -/
inductive Op where
  | start (student_id test_id new_id : Nat)
  | submit (attempt_id question_id : Nat) (chosen : List Nat) (new_id : Nat)
  | finish (attempt_id : Nat)
  | create (teacher_id : Nat) (title : String) (description image_url : Option String) (new_id : Nat)
  | delete (bucket : String) (test_id teacher_id : Nat)

/-- The database state after running one operation (errors leave the state
unchanged, as every service raises before its first write). -/
def applyOp (db : DB) : Op → DB
  | .start s t n => dbAfter db (startTest db s t n)
  | .submit a q c n => dbAfter db (submitAnswer db a q c n)
  | .finish a => dbAfter db (finishTest db a)
  | .create t ti d i n => dbAfter db (createTest db t ti d i n)
  | .delete b t te => dbAfter db (deleteTest db b t te)

/-! ## Invariant machinery -/

/-- Number of IN_PROGRESS attempts a student has, across all tests. -/
def activeCount (db : DB) (student_id : Nat) : Nat :=
  db.attempts.countP
    (fun a => a.student_id == student_id && a.status == TestAttemptStatus.IN_PROGRESS)

/-- The single-active-attempt invariant: per student, at most one
IN_PROGRESS attempt. -/
def singleActiveInv (db : DB) : Prop :=
  ∀ student_id, activeCount db student_id ≤ 1

/-- Number of StudentAnswer rows for one (attempt, question) pair. -/
def pairCount (db : DB) (attempt_id question_id : Nat) : Nat :=
  db.student_answers.countP
    (fun sa => sa.attempt_id == attempt_id && sa.question_id == question_id)

/-- The upsert invariant: at most one StudentAnswer per (attempt, question)
pair. -/
def uniqueAnswerInv (db : DB) : Prop :=
  ∀ attempt_id question_id, pairCount db attempt_id question_id ≤ 1

lemma hasActiveAttempt_false_iff (db : DB) (student_id : Nat) :
    hasActiveAttempt db student_id = false ↔ activeCount db student_id = 0 := by
  simp [hasActiveAttempt, activeCount, List.any_eq_false, List.countP_eq_zero]

lemma countP_map_le_of_imp {α : Type} (l : List α) (f : α → α) (p : α → Bool)
    (h : ∀ x ∈ l, p (f x) = true → p x = true) :
    (l.map f).countP p ≤ l.countP p := by
  induction l with
  | nil => simp
  | cons a l ih =>
    have hrec := ih (fun x hx => h x (List.mem_cons_of_mem _ hx))
    by_cases hpa : p (f a) = true
    · have hpa' : p a = true := h a (List.mem_cons_self _ _) hpa
      simp only [List.map_cons, List.countP_cons, hpa, hpa', if_pos]
      omega
    · simp only [List.map_cons, List.countP_cons, hpa, if_false, Bool.false_eq_true]
      split <;> omega

lemma saveStudentAnswer_attempts (db : DB) (attempt_id question_id : Nat)
    (chosen : List Nat) (is_correct : Bool) (new_id : Nat) :
    (saveStudentAnswer db attempt_id question_id chosen is_correct new_id).attempts
      = db.attempts := by
  unfold saveStudentAnswer
  cases db.student_answers.find?
      (fun sa => sa.attempt_id == attempt_id && sa.question_id == question_id) <;> rfl

lemma submitAnswer_state (db : DB) (attempt_id question_id : Nat) (chosen : List Nat)
    (new_id : Nat) :
    dbAfter db (submitAnswer db attempt_id question_id chosen new_id) = db ∨
    ∃ is_correct, dbAfter db (submitAnswer db attempt_id question_id chosen new_id)
      = saveStudentAnswer db attempt_id question_id chosen is_correct new_id := by
  unfold submitAnswer
  cases hf : findAttempt db attempt_id with
  | none => left; rfl
  | some att =>
    by_cases hc : (att.status == TestAttemptStatus.COMPLETED) = true
    · left; simp [hc, dbAfter]
    · by_cases hq : ((testQuestions db att.test_id).any
          (fun q => q.question_id == question_id)) = true
      · right; exact ⟨_, by simp [hc, hq, dbAfter]; rfl⟩
      · left; simp [hc, hq, dbAfter]

lemma finishTest_state (db : DB) (attempt_id : Nat) :
    dbAfter db (finishTest db attempt_id) = db ∨
    ∃ s, dbAfter db (finishTest db attempt_id)
      = { db with attempts := db.attempts.map (fun a =>
            if a.attempt_id == attempt_id then
              { a with status := TestAttemptStatus.COMPLETED, score := some s }
            else a) } := by
  unfold finishTest
  cases hf : findAttempt db attempt_id with
  | none => left; rfl
  | some att =>
    by_cases hc : (att.status == TestAttemptStatus.COMPLETED) = true
    · left; simp [hc, dbAfter]
    · right; exact ⟨_, by simp [hc, dbAfter]; intro a ha; split <;> rfl⟩

lemma createTest_state (db : DB) (teacher_id : Nat) (title : String)
    (description image_url : Option String) (new_id : Nat) :
    dbAfter db (createTest db teacher_id title description image_url new_id) = db ∨
    ∃ t, dbAfter db (createTest db teacher_id title description image_url new_id)
      = { db with tests := db.tests ++ [t] } := by
  unfold createTest
  by_cases h : (db.tests.any (fun t => t.title == title)) = true
  · left; simp [h, dbAfter]
  · right; exact ⟨_, by simp [h, dbAfter]; rfl⟩

lemma deleteTest_state (db : DB) (bucket : String) (test_id teacher_id : Nat) :
    dbAfter db (deleteTest db bucket test_id teacher_id) = db ∨
    ((dbAfter db (deleteTest db bucket test_id teacher_id)).attempts.Sublist db.attempts ∧
     (dbAfter db (deleteTest db bucket test_id teacher_id)).student_answers.Sublist
       db.student_answers) := by
  unfold deleteTest
  cases hf : getTestById db test_id teacher_id with
  | none => left; rfl
  | some t =>
    right
    constructor
    · simp only [dbAfter]
      exact List.filter_sublist _
    · simp only [dbAfter]
      exact List.filter_sublist _

/-- Claim C1: for every student at most one TestAttempt is IN_PROGRESS at
any time across all tests; every operation preserves this invariant, and a
startTest call made while the student already has an IN_PROGRESS attempt
fails with Conflict(ActiveAttemptExists) and does not create an attempt. -/
theorem startTest_single_active_attempt (db : DB) (hinv : singleActiveInv db) :
    (∀ op, singleActiveInv (applyOp db op)) ∧
    (∀ student_id test_id new_id, hasActiveAttempt db student_id = true →
      startTest db student_id test_id new_id = .error Err.activeTestAttemptExists ∧
      dbAfter db (startTest db student_id test_id new_id) = db) := by
  constructor
  · intro op
    cases op with
    | start s t n =>
      simp only [applyOp]
      unfold startTest
      by_cases hA : hasActiveAttempt db s = true
      · simp [hA, dbAfter]; exact hinv
      · have h0 : activeCount db s = 0 :=
          (hasActiveAttempt_false_iff db s).mp (by simpa using hA)
        cases hg : getTestForStudentById db t with
        | none => simp [hA, hg, dbAfter]; exact hinv
        | some t0 =>
          simp only [hA, hg, Bool.false_eq_true, if_false, dbAfter, createTestAttempt]
          intro sid
          have hcard := hinv sid
          simp only [activeCount, List.countP_append, List.countP_cons, List.countP_nil] at *
          by_cases hs : s = sid
          · subst hs
            simp only [beq_self_eq_true, Bool.and_self, Bool.true_and]
            have : (TestAttemptStatus.IN_PROGRESS == TestAttemptStatus.IN_PROGRESS) = true := rfl
            simp [this, h0]
          · have : (s == sid) = false := by simp [hs]
            simp [this]
            omega
    | submit a q c n =>
      simp only [applyOp]
      rcases submitAnswer_state db a q c n with h | ⟨ic, h⟩
      · rw [h]; exact hinv
      · rw [h]
        intro sid
        have := hinv sid
        simpa [activeCount, saveStudentAnswer_attempts] using this
    | finish a =>
      simp only [applyOp]
      rcases finishTest_state db a with h | ⟨s, h⟩
      · rw [h]; exact hinv
      · rw [h]
        intro sid
        refine le_trans ?_ (hinv sid)
        simp only [activeCount]
        apply countP_map_le_of_imp
        intro x _ hp
        by_cases hid : (x.attempt_id == a) = true
        · simp only [hid, if_pos] at hp
          have : (TestAttemptStatus.COMPLETED == TestAttemptStatus.IN_PROGRESS) = false := rfl
          simp [this] at hp
        · simpa [hid] using hp
    | create t ti d i n =>
      simp only [applyOp]
      rcases createTest_state db t ti d i n with h | ⟨t0, h⟩
      · rw [h]; exact hinv
      · rw [h]
        intro sid
        simpa [activeCount] using hinv sid
    | delete b t te =>
      simp only [applyOp]
      rcases deleteTest_state db b t te with h | ⟨h, _⟩
      · rw [h]; exact hinv
      · intro sid
        refine le_trans ?_ (hinv sid)
        exact List.Sublist.countP_le _ h
  · intro sid tid nid hA
    constructor
    · simp [startTest, hA]
    · simp [startTest, hA, dbAfter]

/-- Concrete database with one IN_PROGRESS attempt for student 1 on
test 5. -/
def dbActive : DB :=
  { tests := [{ test_id := 5, teacher_id := 1, title := "T", description := none,
                image_url := none, status := TestStatus.PUBLISHED }]
    questions := []
    answer_options := []
    attempts := [{ attempt_id := 40, student_id := 1, test_id := 5,
                   status := TestAttemptStatus.IN_PROGRESS, score := none }]
    student_answers := [] }

theorem startTest_single_active_attempt_witness :
    startTest dbActive 1 5 41 = .error Err.activeTestAttemptExists :=
  ((startTest_single_active_attempt dbActive
      (fun sid => le_trans (List.countP_le_length _) (by simp [dbActive]))).2
    1 5 41 (by decide)).1

lemma updateRow_countP (sas : List StudentAnswer) (a q : Nat) (ic : Bool) (co : List Nat)
    (p : StudentAnswer → Bool)
    (hp : ∀ sa, p { sa with is_correct := ic, chosen_options := co } = p sa) :
    (updateStudentAnswerRow sas a q ic co).countP p = sas.countP p := by
  induction sas with
  | nil => rfl
  | cons sa rest ih =>
    unfold updateStudentAnswerRow
    by_cases h : (sa.attempt_id == a && sa.question_id == q) = true
    · simp [h, List.countP_cons, hp]
    · simp [h, List.countP_cons, ih]

lemma updateRow_mem (sas : List StudentAnswer) (a q : Nat) (ic : Bool) (co : List Nat)
    (h : ∃ sa ∈ sas, (sa.attempt_id == a && sa.question_id == q) = true) :
    ∃ sa ∈ updateStudentAnswerRow sas a q ic co,
      sa.attempt_id = a ∧ sa.question_id = q ∧ sa.is_correct = ic ∧ sa.chosen_options = co := by
  induction sas with
  | nil => simp at h
  | cons sa rest ih =>
    unfold updateStudentAnswerRow
    by_cases hh : (sa.attempt_id == a && sa.question_id == q) = true
    · have hh' : sa.attempt_id = a ∧ sa.question_id = q := by
        simpa [Bool.and_eq_true, beq_iff_eq] using hh
      refine ⟨{ sa with is_correct := ic, chosen_options := co }, ?_, hh'.1, hh'.2, rfl, rfl⟩
      simp [hh]
    · rcases h with ⟨x, hx, hpx⟩
      rcases List.mem_cons.mp hx with rfl | hx'
      · exact absurd hpx hh
      · rcases ih ⟨x, hx', hpx⟩ with ⟨y, hy, hys⟩
        refine ⟨y, ?_, hys⟩
        simp only [hh, Bool.false_eq_true, if_false]
        exact List.mem_cons_of_mem _ hy

lemma saveStudentAnswer_mem (db : DB) (a q : Nat) (c : List Nat) (ic : Bool) (n : Nat) :
    ∃ sa ∈ (saveStudentAnswer db a q c ic n).student_answers,
      sa.attempt_id = a ∧ sa.question_id = q ∧ sa.is_correct = ic ∧
      sa.chosen_options = (fetchChosenOptions db c).map (fun o => o.answer_id) := by
  unfold saveStudentAnswer
  cases hf : db.student_answers.find? (fun sa => sa.attempt_id == a && sa.question_id == q) with
  | some sa0 =>
    have hp := List.find?_some hf
    exact updateRow_mem _ _ _ _ _ ⟨sa0, List.mem_of_find?_eq_some hf, hp⟩
  | none =>
    refine ⟨{ student_answer_id := n, attempt_id := a, question_id := q, is_correct := ic,
              chosen_options := (fetchChosenOptions db c).map (fun o => o.answer_id) },
      ?_, rfl, rfl, rfl, rfl⟩
    simp

lemma saveStudentAnswer_pairCount_self (db : DB) (a q : Nat) (c : List Nat) (ic : Bool)
    (n : Nat) (hle : pairCount db a q ≤ 1) :
    pairCount (saveStudentAnswer db a q c ic n) a q = 1 := by
  unfold saveStudentAnswer pairCount
  cases hf : db.student_answers.find? (fun sa => sa.attempt_id == a && sa.question_id == q) with
  | some sa0 =>
    rw [updateRow_countP _ _ _ _ _ _ (fun sa => rfl)]
    have hp := List.find?_some hf
    have hpos : 0 < db.student_answers.countP
        (fun sa => sa.attempt_id == a && sa.question_id == q) :=
      List.countP_pos_iff.mpr ⟨sa0, List.mem_of_find?_eq_some hf, hp⟩
    have := hle
    unfold pairCount at this
    omega
  | none =>
    rw [List.countP_append]
    have h0 : db.student_answers.countP
        (fun sa => sa.attempt_id == a && sa.question_id == q) = 0 :=
      List.countP_eq_zero.mpr (by simpa using List.find?_eq_none.mp hf)
    simp [h0, List.countP_cons]

lemma saveStudentAnswer_pairCount_other (db : DB) (a q : Nat) (c : List Nat) (ic : Bool)
    (n : Nat) (a' q' : Nat) (hne : ¬(a = a' ∧ q = q')) :
    pairCount (saveStudentAnswer db a q c ic n) a' q' = pairCount db a' q' := by
  unfold saveStudentAnswer pairCount
  cases hf : db.student_answers.find? (fun sa => sa.attempt_id == a && sa.question_id == q) with
  | some sa0 =>
    rw [updateRow_countP _ _ _ _ _ _ (fun sa => rfl)]
  | none =>
    rw [List.countP_append]
    have : ((⟨n, a, q, ic, (fetchChosenOptions db c).map (fun o => o.answer_id)⟩ :
        StudentAnswer).attempt_id == a' &&
        (⟨n, a, q, ic, (fetchChosenOptions db c).map (fun o => o.answer_id)⟩ :
        StudentAnswer).question_id == q') = false := by
      simp only [Bool.and_eq_false_iff, beq_eq_false_iff_ne, ne_eq]
      by_cases h1 : a = a'
      · right; intro h2; exact hne ⟨h1, h2⟩
      · left; exact h1
    simp [List.countP_cons, this]

lemma saveStudentAnswer_inv (db : DB) (a q : Nat) (c : List Nat) (ic : Bool) (n : Nat)
    (hinv : uniqueAnswerInv db) : uniqueAnswerInv (saveStudentAnswer db a q c ic n) := by
  intro a' q'
  by_cases h : a = a' ∧ q = q'
  · obtain ⟨rfl, rfl⟩ := h
    rw [saveStudentAnswer_pairCount_self db a q c ic n (hinv a q)]
  · rw [saveStudentAnswer_pairCount_other db a q c ic n a' q' h]
    exact hinv a' q'

lemma startTest_student_answers (db : DB) (s t n : Nat) :
    (dbAfter db (startTest db s t n)).student_answers = db.student_answers := by
  unfold startTest
  by_cases hA : hasActiveAttempt db s = true
  · simp [hA, dbAfter]
  · cases hg : getTestForStudentById db t <;> simp [hA, hg, dbAfter, createTestAttempt]

/-- A successful submitAnswer call, characterised: the result's is_correct
is the set comparison of the raw chosen ids against the question's correct
ids, the result returns those correct ids, and the new state is the upsert. -/
lemma submitAnswer_ok (db : DB) (a q : Nat) (c : List Nat) (n : Nat) (r : SubmitResult)
    (db' : DB) (h : submitAnswer db a q c n = .ok (r, db')) :
    r.is_correct = eqAsSet c ((getCorrectAnswersForQuestion db q).map (fun o => o.answer_id)) ∧
    r.correct_answer_option_ids = (getCorrectAnswersForQuestion db q).map (fun o => o.answer_id) ∧
    db' = saveStudentAnswer db a q c r.is_correct n := by
  unfold submitAnswer at h
  cases hf : findAttempt db a with
  | none => rw [hf] at h; exact absurd h (by simp)
  | some att =>
    rw [hf] at h
    by_cases hc : (att.status == TestAttemptStatus.COMPLETED) = true
    · simp [hc] at h
    · by_cases hq : ((testQuestions db att.test_id).any (fun q0 => q0.question_id == q)) = true
      · simp only [hc, Bool.false_eq_true, if_false, hq, Bool.not_true,
          Except.ok.injEq, Prod.mk.injEq] at h
        obtain ⟨hr, hdb⟩ := h
        subst hr hdb
        exact ⟨rfl, rfl, rfl⟩
      · simp [hc, hq] at h

/-- Claim C5: at most one StudentAnswer per (attempt, question) pair; every
operation preserves this, and a successful submitAnswer leaves exactly one
record for the pair, holding only the latest submission's correctness flag
and chosen-option set (the fetched rows of the latest chosen ids). -/
theorem studentAnswer_upsert_unique (db : DB) (hinv : uniqueAnswerInv db) :
    (∀ op, uniqueAnswerInv (applyOp db op)) ∧
    (∀ attempt_id question_id chosen new_id r db',
      submitAnswer db attempt_id question_id chosen new_id = .ok (r, db') →
      pairCount db' attempt_id question_id = 1 ∧
      ∃ sa ∈ db'.student_answers, sa.attempt_id = attempt_id ∧ sa.question_id = question_id ∧
        sa.is_correct = r.is_correct ∧
        sa.chosen_options = (fetchChosenOptions db chosen).map (fun o => o.answer_id)) := by
  constructor
  · intro op
    cases op with
    | start s t n =>
      intro a' q'
      have h := startTest_student_answers db s t n
      simp only [applyOp]
      unfold pairCount
      rw [h]
      exact hinv a' q'
    | submit a q c n =>
      simp only [applyOp]
      rcases submitAnswer_state db a q c n with h | ⟨ic, h⟩
      · rw [h]; exact hinv
      · rw [h]; exact saveStudentAnswer_inv db a q c ic n hinv
    | finish a =>
      simp only [applyOp]
      rcases finishTest_state db a with h | ⟨s, h⟩
      · rw [h]; exact hinv
      · rw [h]
        intro a' q'
        simpa [pairCount] using hinv a' q'
    | create t ti d i n =>
      simp only [applyOp]
      rcases createTest_state db t ti d i n with h | ⟨t0, h⟩
      · rw [h]; exact hinv
      · rw [h]
        intro a' q'
        simpa [pairCount] using hinv a' q'
    | delete b t te =>
      simp only [applyOp]
      rcases deleteTest_state db b t te with h | ⟨_, h⟩
      · rw [h]; exact hinv
      · intro a' q'
        refine le_trans ?_ (hinv a' q')
        exact List.Sublist.countP_le _ h
  · intro a q c n r db' h
    obtain ⟨hr, _, hdb⟩ := submitAnswer_ok db a q c n r db' h
    subst hdb
    exact ⟨saveStudentAnswer_pairCount_self db a q c r.is_correct n (hinv a q),
      saveStudentAnswer_mem db a q c r.is_correct n⟩

/-- Concrete database for the upsert witness: published test 5 with one
question (21) carrying two options, attempt 50 in progress, one existing
answer for the pair (50, 21). -/
def dbUpsert : DB :=
  { tests := [{ test_id := 5, teacher_id := 1, title := "U", description := none,
                image_url := none, status := TestStatus.PUBLISHED }]
    questions := [{ question_id := 21, test_id := 5, question_text := "q", image_url := none,
                    order := some 1, points := 1 }]
    answer_options := [
      { answer_id := 31, question_id := 21, answer_text := some "a", image_url := none,
        is_correct := true },
      { answer_id := 32, question_id := 21, answer_text := some "b", image_url := none,
        is_correct := false }]
    attempts := [{ attempt_id := 50, student_id := 1, test_id := 5,
                   status := TestAttemptStatus.IN_PROGRESS, score := none }]
    student_answers := [{ student_answer_id := 70, attempt_id := 50, question_id := 21,
                          is_correct := false, chosen_options := [32] }] }

theorem studentAnswer_upsert_unique_witness :
    pairCount (dbAfter dbUpsert (submitAnswer dbUpsert 50 21 [31] 71)) 50 21 = 1 := by
  have hok : submitAnswer dbUpsert 50 21 [31] 71 = .ok
      ({ is_correct := true, correct_answer_option_ids := [31] },
        saveStudentAnswer dbUpsert 50 21 [31] true 71) := rfl
  have h := ((studentAnswer_upsert_unique dbUpsert
      (fun a' q' => le_trans (List.countP_le_length _) (by simp [dbUpsert]))).2
      50 21 [31] 71 _ _ hok).1
  rw [hok]
  simpa [dbAfter] using h

lemma contains_true_iff (l : List Nat) (x : Nat) : l.contains x = true ↔ x ∈ l := by
  simp [List.contains, List.elem_iff]

/-- Python set equality of id lists is Finset equality. -/
lemma eqAsSet_iff (xs ys : List Nat) : eqAsSet xs ys = true ↔ xs.toFinset = ys.toFinset := by
  simp only [eqAsSet, Bool.and_eq_true, List.all_eq_true, contains_true_iff,
    Finset.ext_iff, List.mem_toFinset]
  constructor
  · rintro ⟨h1, h2⟩ a
    exact ⟨fun ha => h1 a ha, fun ha => h2 a ha⟩
  · intro h
    exact ⟨fun a ha => (h a).1 ha, fun a ha => (h a).2 ha⟩

/-- Claim C2: submitAnswer scores a question correct exactly when the
submitted chosen-option set equals the question's authoritative set of
correct AnswerOption ids (exact set equality, no partial credit); with
zero correct options, the empty chosen set and only it scores correct. -/
theorem submitAnswer_exact_set_scoring (db : DB) (attempt_id question_id new_id : Nat)
    (chosen : List Nat) (att : TestAttempt)
    (hfind : findAttempt db attempt_id = some att)
    (hstat : att.status = TestAttemptStatus.IN_PROGRESS)
    (hq : (testQuestions db att.test_id).any (fun q => q.question_id == question_id) = true) :
    ∃ r db', submitAnswer db attempt_id question_id chosen new_id = .ok (r, db') ∧
      (r.is_correct = true ↔
        chosen.toFinset = ((db.answer_options.filter
          (fun o => o.question_id == question_id && o.is_correct)).map
            (fun o => o.answer_id)).toFinset) ∧
      ((∀ o ∈ db.answer_options, o.question_id = question_id → o.is_correct = false) →
        (r.is_correct = true ↔ chosen = [])) := by
  have hc : (att.status == TestAttemptStatus.COMPLETED) = false := by simp [hstat]
  have hok : submitAnswer db attempt_id question_id chosen new_id = .ok
      ({ is_correct := eqAsSet chosen
           ((getCorrectAnswersForQuestion db question_id).map (fun o => o.answer_id)),
         correct_answer_option_ids :=
           (getCorrectAnswersForQuestion db question_id).map (fun o => o.answer_id) },
       saveStudentAnswer db attempt_id question_id chosen
         (eqAsSet chosen
           ((getCorrectAnswersForQuestion db question_id).map (fun o => o.answer_id)))
         new_id) := by
    unfold submitAnswer
    rw [hfind]
    simp [hc, hq]
  refine ⟨_, _, hok, ?_, ?_⟩
  · exact eqAsSet_iff _ _
  · intro hzero
    have hnil : getCorrectAnswersForQuestion db question_id = [] := by
      unfold getCorrectAnswersForQuestion
      rw [List.filter_eq_nil_iff]
      intro o ho
      simp only [Bool.and_eq_true, beq_iff_eq, not_and]
      intro hoq
      simp [hzero o ho hoq]
    rw [hnil]
    simp [eqAsSet, List.all_eq_true, List.eq_nil_iff_forall_not_mem]

theorem submitAnswer_exact_set_scoring_witness :
    ∃ r db', submitAnswer dbUpsert 50 21 [31] 72 = .ok (r, db') ∧ r.is_correct = true := by
  obtain ⟨r, db', hok, hiff, _⟩ := submitAnswer_exact_set_scoring dbUpsert 50 21 72 [31]
    { attempt_id := 50, student_id := 1, test_id := 5,
      status := TestAttemptStatus.IN_PROGRESS, score := none }
    rfl rfl (by decide)
  exact ⟨r, db', hok, hiff.mpr (by decide)⟩

/-- Claim C4: once an attempt is COMPLETED, both submitAnswer and
finishTest fail with Conflict(AlreadyFinished) and leave the database —
the attempt's score and status and all StudentAnswer rows — unchanged. -/
theorem completed_attempt_terminal (db : DB) (attempt_id question_id new_id : Nat)
    (chosen : List Nat) (att : TestAttempt)
    (hfind : findAttempt db attempt_id = some att)
    (hstat : att.status = TestAttemptStatus.COMPLETED) :
    submitAnswer db attempt_id question_id chosen new_id
      = .error (Err.attemptAlreadyFinished attempt_id) ∧
    finishTest db attempt_id = .error (Err.attemptAlreadyFinished attempt_id) ∧
    dbAfter db (submitAnswer db attempt_id question_id chosen new_id) = db ∧
    dbAfter db (finishTest db attempt_id) = db := by
  have hc : (att.status == TestAttemptStatus.COMPLETED) = true := by simp [hstat]
  have h1 : submitAnswer db attempt_id question_id chosen new_id
      = .error (Err.attemptAlreadyFinished attempt_id) := by
    unfold submitAnswer
    rw [hfind]
    simp [hc]
  have h2 : finishTest db attempt_id = .error (Err.attemptAlreadyFinished attempt_id) := by
    unfold finishTest
    rw [hfind]
    simp [hc]
  exact ⟨h1, h2, by rw [h1]; rfl, by rw [h2]; rfl⟩

/-- Concrete database with a COMPLETED attempt (60). -/
def dbDone : DB :=
  { tests := [{ test_id := 5, teacher_id := 1, title := "D", description := none,
                image_url := none, status := TestStatus.PUBLISHED }]
    questions := [{ question_id := 21, test_id := 5, question_text := "q", image_url := none,
                    order := some 1, points := 1 }]
    answer_options := []
    attempts := [{ attempt_id := 60, student_id := 2, test_id := 5,
                   status := TestAttemptStatus.COMPLETED, score := none }]
    student_answers := [] }

theorem completed_attempt_terminal_witness :
    submitAnswer dbDone 60 21 [] 73 = .error (Err.attemptAlreadyFinished 60) :=
  (completed_attempt_terminal dbDone 60 21 73 []
    { attempt_id := 60, student_id := 2, test_id := 5,
      status := TestAttemptStatus.COMPLETED, score := none }
    rfl rfl).1

/-- Concrete database for the score formula: test 5 with questions of
points [2,3,5]; attempt 50 answered only the second question, correctly. -/
def dbScore : DB :=
  { tests := [{ test_id := 5, teacher_id := 1, title := "S", description := none,
                image_url := none, status := TestStatus.PUBLISHED }]
    questions := [
      { question_id := 11, test_id := 5, question_text := "q1", image_url := none,
        order := some 1, points := 2 },
      { question_id := 12, test_id := 5, question_text := "q2", image_url := none,
        order := some 2, points := 3 },
      { question_id := 13, test_id := 5, question_text := "q3", image_url := none,
        order := some 3, points := 5 }]
    answer_options := []
    attempts := [{ attempt_id := 50, student_id := 1, test_id := 5,
                   status := TestAttemptStatus.IN_PROGRESS, score := none }]
    student_answers := [{ student_answer_id := 70, attempt_id := 50, question_id := 12,
                          is_correct := true, chosen_options := [] }] }

/-- Spec §4.3 formula: `total_possible_points = sum(question.points for all
questions in test)`. -/
def specTotalPoints (db : DB) (test_id : Nat) : Nat :=
  ((db.questions.filter (fun q => q.test_id == test_id)).map (fun q => q.points)).sum

/-- Spec §4.3 formula: `earned_points = sum(question.points for each
StudentAnswer marked is_correct)` over the attempt's answers. -/
def specEarnedPoints (db : DB) (attempt_id : Nat) : Nat :=
  (((db.student_answers.filter (fun sa => sa.attempt_id == attempt_id)).filter
    (fun sa => sa.is_correct)).map (fun sa => questionPoints db sa.question_id)).sum

/-- Spec §4.3 formula: `score = (earned/total) * 100 if total > 0 else 0`. -/
def specScore (db : DB) (attempt_id test_id : Nat) : ℚ :=
  if 0 < specTotalPoints db test_id then
    ((specEarnedPoints db attempt_id : ℚ) / (specTotalPoints db test_id : ℚ)) * 100
  else 0

/-- Claim C3: finish computes total_possible_points as the sum of points
over all questions of the attempt's test, earned_points as the sum of
points of the questions whose recorded StudentAnswer is marked is_correct
(unanswered questions earn nothing but count in the total), and
score = earned/total * 100 when total > 0 else 0; in particular for points
[2,3,5] with only the second question answered correctly it yields
earnedPoints=3, totalPoints=10, score=30. -/
theorem finishTest_score_formula (db : DB) (attempt_id : Nat) (att : TestAttempt)
    (hfind : findAttempt db attempt_id = some att)
    (hstat : att.status = TestAttemptStatus.IN_PROGRESS) :
    (∃ r db', finishTest db attempt_id = .ok (r, db') ∧
      r.total_possible_points = specTotalPoints db att.test_id ∧
      r.earned_points = specEarnedPoints db attempt_id ∧
      r.score = specScore db attempt_id att.test_id) ∧
    (∃ r db', finishTest dbScore 50 = .ok (r, db') ∧ r.earned_points = 3 ∧
      r.total_possible_points = 10 ∧ r.score = 30) := by
  have hgen : ∀ (db0 : DB) (aid : Nat) (att0 : TestAttempt),
      findAttempt db0 aid = some att0 → att0.status = TestAttemptStatus.IN_PROGRESS →
      ∃ r db', finishTest db0 aid = .ok (r, db') ∧
        r.total_possible_points = specTotalPoints db0 att0.test_id ∧
        r.earned_points = specEarnedPoints db0 aid ∧
        r.score = specScore db0 aid att0.test_id := by
    intro db0 aid att0 hf hst
    have hc : (att0.status == TestAttemptStatus.COMPLETED) = false := by simp [hst]
    refine ⟨{ attempt_id := aid, test_id := att0.test_id
              status := TestAttemptStatus.COMPLETED
              score := specScore db0 aid att0.test_id
              total_possible_points := specTotalPoints db0 att0.test_id
              earned_points := specEarnedPoints db0 aid },
      { db0 with attempts := db0.attempts.map (fun a =>
          if a.attempt_id == aid then
            { a with status := TestAttemptStatus.COMPLETED, score := some (specScore db0 aid att0.test_id) }
          else a) },
      ?_, rfl, rfl, rfl⟩
    unfold finishTest
    rw [hf]
    simp only [hc, Bool.false_eq_true, if_false]
    rfl
  constructor
  · exact hgen db attempt_id att hfind hstat
  · obtain ⟨r, db', hok, ht, he, hs⟩ := hgen dbScore 50
      { attempt_id := 50, student_id := 1, test_id := 5,
        status := TestAttemptStatus.IN_PROGRESS, score := none } rfl rfl
    have h10 : r.total_possible_points = 10 := by rw [ht]; decide
    have h3 : r.earned_points = 3 := by rw [he]; decide
    refine ⟨r, db', hok, h3, h10, ?_⟩
    rw [hs]
    unfold specScore
    rw [(by decide : specTotalPoints dbScore 5 = 10),
        (by decide : specEarnedPoints dbScore 50 = 3)]
    norm_num

theorem finishTest_score_formula_witness :
    ∃ r db', finishTest dbScore 50 = .ok (r, db') ∧ r.earned_points = 3 ∧
      r.total_possible_points = 10 ∧ r.score = 30 :=
  (finishTest_score_formula dbScore 50
    { attempt_id := 50, student_id := 1, test_id := 5,
      status := TestAttemptStatus.IN_PROGRESS, score := none } rfl rfl).2

/-- Claim C10: submitAnswer performs no existence or ownership validation
on the chosen AnswerOption ids: with ids matching no AnswerOption row or
ids of another question's options, the call still succeeds (no NotFound),
is_correct is computed by set equality of the raw chosen ids against the
question's correct ids, and ids matching no AnswerOption row are silently
omitted from the persisted chosen-options set. -/
theorem submitAnswer_no_option_validation (db : DB) (attempt_id question_id new_id : Nat)
    (chosen : List Nat) (att : TestAttempt)
    (hfind : findAttempt db attempt_id = some att)
    (hstat : att.status = TestAttemptStatus.IN_PROGRESS)
    (hq : (testQuestions db att.test_id).any (fun q => q.question_id == question_id) = true)
    (_hbad : ∃ x ∈ chosen, (∀ o ∈ db.answer_options, o.answer_id ≠ x) ∨
      (∃ o ∈ db.answer_options, o.answer_id = x ∧ o.question_id ≠ question_id)) :
    ∃ r db', submitAnswer db attempt_id question_id chosen new_id = .ok (r, db') ∧
      (r.is_correct = true ↔ chosen.toFinset =
        ((getCorrectAnswersForQuestion db question_id).map (fun o => o.answer_id)).toFinset) ∧
      ∃ sa ∈ db'.student_answers, sa.attempt_id = attempt_id ∧ sa.question_id = question_id ∧
        sa.chosen_options =
          (db.answer_options.filter (fun o => chosen.contains o.answer_id)).map
            (fun o => o.answer_id) ∧
        (∀ x ∈ chosen, (∀ o ∈ db.answer_options, o.answer_id ≠ x) → x ∉ sa.chosen_options) := by
  have hc : (att.status == TestAttemptStatus.COMPLETED) = false := by simp [hstat]
  have hok : submitAnswer db attempt_id question_id chosen new_id = .ok
      ({ is_correct := eqAsSet chosen
           ((getCorrectAnswersForQuestion db question_id).map (fun o => o.answer_id)),
         correct_answer_option_ids :=
           (getCorrectAnswersForQuestion db question_id).map (fun o => o.answer_id) },
       saveStudentAnswer db attempt_id question_id chosen
         (eqAsSet chosen
           ((getCorrectAnswersForQuestion db question_id).map (fun o => o.answer_id)))
         new_id) := by
    unfold submitAnswer
    rw [hfind]
    simp [hc, hq]
  refine ⟨_, _, hok, eqAsSet_iff _ _, ?_⟩
  obtain ⟨sa, hmem, ha, hqid, _, hco⟩ := saveStudentAnswer_mem db attempt_id question_id chosen
    (eqAsSet chosen ((getCorrectAnswersForQuestion db question_id).map (fun o => o.answer_id)))
    new_id
  refine ⟨sa, hmem, ha, hqid, hco, ?_⟩
  intro x hx hnone hxin
  rw [hco] at hxin
  obtain ⟨o, homem, hid⟩ := List.mem_map.mp hxin
  exact hnone o (List.mem_filter.mp homem).1 hid

theorem submitAnswer_no_option_validation_witness :
    ∃ r db', submitAnswer dbUpsert 50 21 [99] 74 = .ok (r, db') ∧ r.is_correct = false ∧
      ∃ sa ∈ db'.student_answers, sa.attempt_id = 50 ∧ sa.question_id = 21 ∧
        sa.chosen_options = [] := by
  obtain ⟨r, db', hok, hiff, sa, hmem, ha, hqid, hco, _⟩ :=
    submitAnswer_no_option_validation dbUpsert 50 21 74 [99]
      { attempt_id := 50, student_id := 1, test_id := 5,
        status := TestAttemptStatus.IN_PROGRESS, score := none }
      rfl rfl (by decide) (by decide)
  refine ⟨r, db', hok, ?_, sa, hmem, ha, hqid, ?_⟩
  · cases hr : r.is_correct with
    | false => rfl
    | true => exact absurd (hiff.mp hr) (by decide)
  · rw [hco]; decide

/-- Concrete database: teacher 1 owns a test titled "Algebra"; teacher 2
owns no test. -/
def dbTitles : DB :=
  { tests := [{ test_id := 1, teacher_id := 1, title := "Algebra", description := none,
                image_url := none, status := TestStatus.DRAFT }]
    questions := []
    answer_options := []
    attempts := []
    student_answers := [] }

/-- Counterexample to claim C6 as stated: the tests.title column carries a
global unique constraint, so although only teacher 1 owns a test titled
"Algebra", teacher 2's attempt to create one also fails with
Conflict(DuplicateTitle) — title uniqueness is not scoped per author. -/
theorem createTest_cross_teacher_title_conflict :
    (∀ t ∈ dbTitles.tests, t.teacher_id = 1) ∧
    createTest dbTitles 2 "Algebra" none none 9 = .error (Err.alreadyExists "Algebra") :=
  ⟨by decide, rfl⟩

/-- Claim C6 (amended): test titles are globally unique across all
teachers: creating a test fails with Conflict(DuplicateTitle) whenever any
existing test — whether of the same teacher or another — already uses the
title, and succeeds otherwise. -/
theorem createTest_title_globally_unique (db : DB) (teacher_id : Nat) (title : String)
    (description image_url : Option String) (new_id : Nat) :
    ((∃ t ∈ db.tests, t.title = title) →
      createTest db teacher_id title description image_url new_id
        = .error (Err.alreadyExists title) ∧
      dbAfter db (createTest db teacher_id title description image_url new_id) = db) ∧
    ((∀ t ∈ db.tests, t.title ≠ title) →
      ∃ t db', createTest db teacher_id title description image_url new_id = .ok (t, db') ∧
        t.title = title ∧ t.teacher_id = teacher_id ∧ t.status = TestStatus.DRAFT ∧
        db'.tests = db.tests ++ [t]) := by
  constructor
  · rintro ⟨t, ht, htitle⟩
    have hany : (db.tests.any (fun u => u.title == title)) = true :=
      List.any_eq_true.mpr ⟨t, ht, by simp [htitle]⟩
    constructor
    · unfold createTest
      simp [hany]
    · unfold createTest
      simp [hany, dbAfter]
  · intro h
    have hany : (db.tests.any (fun u => u.title == title)) = false := by
      simp only [List.any_eq_false]
      intro t ht
      simp [h t ht]
    refine ⟨{ test_id := new_id, teacher_id := teacher_id, title := title
              description := description, image_url := image_url, status := TestStatus.DRAFT },
      { db with tests := db.tests ++
          [{ test_id := new_id, teacher_id := teacher_id, title := title
             description := description, image_url := image_url, status := TestStatus.DRAFT }] },
      ?_, rfl, rfl, rfl, rfl⟩
    unfold createTest
    simp [hany]

theorem createTest_title_globally_unique_witness :
    createTest dbTitles 1 "Algebra" none none 9 = .error (Err.alreadyExists "Algebra") :=
  ((createTest_title_globally_unique dbTitles 1 "Algebra" none none 9).1 (by decide)).1

/-- Concrete database: published test 5 of teacher 1 with two questions;
one COMPLETED attempt whose only StudentAnswer concerns question 21;
question 22 was never answered. -/
def dbAnalytics : DB :=
  { tests := [{ test_id := 5, teacher_id := 1, title := "A", description := none,
                image_url := none, status := TestStatus.PUBLISHED }]
    questions := [
      { question_id := 21, test_id := 5, question_text := "one", image_url := none,
        order := some 1, points := 1 },
      { question_id := 22, test_id := 5, question_text := "two", image_url := none,
        order := some 2, points := 1 }]
    answer_options := []
    attempts := [{ attempt_id := 50, student_id := 1, test_id := 5,
                   status := TestAttemptStatus.COMPLETED, score := some 100 }]
    student_answers := [{ student_answer_id := 70, attempt_id := 50, question_id := 21,
                          is_correct := true, chosen_options := [] }] }

/-- Counterexample to claim C7 as stated: question 22 of the test has no
StudentAnswer, and the analytics result contains no row for it at all —
the code's inner join drops unanswered questions instead of reporting
them with a 0 percentage. -/
theorem getTestAnalytics_omits_unanswered_question :
    (∃ q ∈ dbAnalytics.questions, q.test_id = 5 ∧ q.question_id = 22) ∧
    (getTestAnalytics dbAnalytics 5 1 none).1 = 1 ∧
    (∀ row ∈ (getTestAnalytics dbAnalytics 5 1 none).2.2, row.question_id ≠ 22) := by
  refine ⟨by decide, by decide, by decide⟩

/-- Claim C7 (amended): for a test owned by the querying author with at
least one COMPLETED attempt, the per-question analytics rows are exactly
the questions having at least one StudentAnswer within COMPLETED attempts
of the test — questions with no answers are omitted, not reported with 0 —
ordered by the question's display order, each reporting
correct/total * 100 over those answers. -/
theorem getTestAnalytics_rows (db : DB) (test_id teacher_id : Nat)
    (howned : db.tests.any (fun t => t.test_id == test_id && t.teacher_id == teacher_id) = true)
    (hsome : completedAttempts db test_id ≠ []) :
    (getTestAnalytics db test_id teacher_id none).1 = (completedAttempts db test_id).length ∧
    ∃ qs : List Question, List.Sorted orderLe qs ∧
      qs.Perm (db.questions.filter
        (fun q => !(completedAnswersFor db test_id q.question_id).isEmpty)) ∧
      (getTestAnalytics db test_id teacher_id none).2.2 = qs.map (fun q =>
        { question_id := q.question_id, question_text := q.question_text
          correct_answer_percentage :=
            if 0 < (completedAnswersFor db test_id q.question_id).length then
              ((((completedAnswersFor db test_id q.question_id).filter
                (fun sa => sa.is_correct)).length : ℚ) /
                ((completedAnswersFor db test_id q.question_id).length : ℚ)) * 100
            else 0 }) := by
  have hne : (completedAttempts db test_id).length ≠ 0 := by
    simpa [List.length_eq_zero] using hsome
  have hlen : ((completedAttempts db test_id).length == 0) = false := by
    simpa using hne
  have hres : getTestAnalytics db test_id teacher_id none =
      ((completedAttempts db test_id).length, avgScore (completedAttempts db test_id),
        questionAnalyticsRows db test_id none) := by
    unfold getTestAnalytics
    simp [howned, hlen]
  have hfilter : db.questions.filter
      (fun q => !(completedAnswersFor db test_id q.question_id).isEmpty
        && textMatches q.question_text none)
      = db.questions.filter
        (fun q => !(completedAnswersFor db test_id q.question_id).isEmpty) := by
    apply List.filter_congr
    intro q _
    simp [textMatches]
  refine ⟨by rw [hres], ?_⟩
  refine ⟨List.insertionSort orderLe (db.questions.filter
    (fun q => !(completedAnswersFor db test_id q.question_id).isEmpty
      && textMatches q.question_text none)), ?_, ?_, ?_⟩
  · exact List.sorted_insertionSort orderLe _
  · exact (List.perm_insertionSort orderLe _).trans (by rw [hfilter])
  · rw [hres]
    rfl

theorem getTestAnalytics_rows_witness :
    (getTestAnalytics dbAnalytics 5 1 none).1 = (completedAttempts dbAnalytics 5).length :=
  (getTestAnalytics_rows dbAnalytics 5 1 (by decide) (by decide)).1

/-- The object-storage deletion requests among a list of events. -/
def s3DeleteKeys (events : List Event) : List String :=
  events.filterMap (fun e => match e with
    | .s3Delete k => some k
    | .dbDeleteTest _ => none)

/-- Every image reference reachable from a test: its own, its questions'
and their answer options'. -/
def imageRefsOfTest (db : DB) (t : Test) : List String :=
  t.image_url.toList ++ (testQuestions db t.test_id).flatMap (fun q =>
    q.image_url.toList ++ (questionOptions db q.question_id).flatMap
      (fun o => o.image_url.toList))

lemma imageEvents_mem (bucket : String) (url : Option String) (u : String)
    (hu : u ∈ url.toList) (hne : u ≠ "") (k : String)
    (hk : getKeyFromUrl bucket u = some k) (hkne : k ≠ "") :
    Event.s3Delete k ∈ imageEvents bucket url := by
  cases url with
  | none => simp at hu
  | some v =>
    have hv : u = v := by simpa [Option.toList] using hu
    subst hv
    have h1 : (u == "") = false := by simpa using hne
    have h2 : (k == "") = false := by simpa using hkne
    simp [imageEvents, h1, hk, h2]

lemma imageEvents_shape (bucket : String) (url : Option String) (e : Event)
    (he : e ∈ imageEvents bucket url) : ∃ k, e = Event.s3Delete k := by
  cases url with
  | none => simp [imageEvents] at he
  | some v =>
    simp only [imageEvents] at he
    by_cases h1 : (v == "") = true
    · rw [h1] at he; simp at he
    · rw [Bool.not_eq_true] at h1
      rw [h1] at he
      cases hk : getKeyFromUrl bucket v with
      | none => rw [hk] at he; simp at he
      | some k =>
        rw [hk] at he
        by_cases h2 : (k == "") = true
        · simp [h2] at he
        · rw [Bool.not_eq_true] at h2
          simp [h2] at he
          exact ⟨k, he⟩

/-- Concrete database: test 1 holds the image reference "plain-ref", which
contains no bucket segment and hence parses to no storage key. -/
def dbCascade : DB :=
  { tests := [{ test_id := 1, teacher_id := 1, title := "C", description := none,
                image_url := some "plain-ref", status := TestStatus.DRAFT }]
    questions := [{ question_id := 21, test_id := 1, question_text := "q", image_url := none,
                    order := none, points := 1 }]
    answer_options := [{ answer_id := 31, question_id := 21, answer_text := some "a",
                         image_url := none, is_correct := true }]
    attempts := []
    student_answers := [] }

/-- Counterexample to claim C8 as stated: the test holds the image
reference "plain-ref", yet deleting it issues no storage deletion request
at all — get_key_from_url yields None for a URL without the bucket
segment, and the code silently skips it. -/
theorem deleteTest_skips_unparseable_image_ref :
    dbCascade.tests.map (fun t => t.image_url) = [some "plain-ref"] ∧
    (deleteTest dbCascade "bucket" 1 1).toOption.map (fun p => s3DeleteKeys p.1)
      = some [] :=
  ⟨by decide, by decide⟩

/-- Claim C8 (amended): deleting a test removes all of its questions and
their answer options, and issues — before the database deletion — a
storage deletion request for every reachable image reference that is
non-empty and parses to a non-empty object key (references without the
bucket segment are silently skipped). -/
theorem deleteTest_cascade_cleanup (db : DB) (bucket : String) (test_id teacher_id : Nat)
    (t : Test) (hfind : getTestById db test_id teacher_id = some t) :
    ∃ events db', deleteTest db bucket test_id teacher_id = .ok (events, db') ∧
      (∀ q ∈ db'.questions, q.test_id ≠ test_id) ∧
      (∀ o ∈ db'.answer_options, ∀ q ∈ db.questions, q.test_id = test_id →
        o.question_id ≠ q.question_id) ∧
      (∀ u ∈ imageRefsOfTest db t, ∀ k, u ≠ "" → getKeyFromUrl bucket u = some k →
        k ≠ "" → Event.s3Delete k ∈ events) ∧
      (∃ pre, events = pre ++ [Event.dbDeleteTest test_id] ∧
        ∀ e ∈ pre, ∃ k, e = Event.s3Delete k) := by
  refine ⟨imageEvents bucket t.image_url ++ (testQuestions db t.test_id).flatMap (fun q =>
      imageEvents bucket q.image_url ++ (questionOptions db q.question_id).flatMap
        (fun o => imageEvents bucket o.image_url)) ++ [Event.dbDeleteTest test_id],
    { tests := db.tests.filter (fun u => !(u.test_id == test_id && u.teacher_id == teacher_id))
      questions := db.questions.filter (fun q => !(q.test_id == test_id))
      answer_options := db.answer_options.filter (fun o =>
        !(((testQuestions db test_id).map (fun q => q.question_id)).contains o.question_id))
      attempts := db.attempts.filter (fun a => !(a.test_id == test_id))
      student_answers := db.student_answers.filter (fun sa =>
        !(((db.attempts.filter (fun a => a.test_id == test_id)).map
          (fun a => a.attempt_id)).contains sa.attempt_id)) },
    ?_, ?_, ?_, ?_, ?_⟩
  · unfold deleteTest
    rw [hfind]
  · intro q hq
    have := (List.mem_filter.mp hq).2
    simpa using this
  · intro o ho q hq hqt
    have hpred := (List.mem_filter.mp ho).2
    intro hoq
    rw [Bool.not_eq_eq_eq_not, Bool.not_true] at hpred
    have : ((testQuestions db test_id).map (fun q => q.question_id)).contains
        o.question_id = true := by
      apply contains_true_iff _ _ |>.mpr
      apply List.mem_map.mpr
      refine ⟨q, ?_, hoq.symm⟩
      unfold testQuestions
      apply List.mem_filter.mpr
      exact ⟨hq, by simp [hqt]⟩
    rw [this] at hpred
    simp at hpred
  · intro u hu k hune hk hkne
    unfold imageRefsOfTest at hu
    rcases List.mem_append.mp hu with hu0 | huq
    · exact List.mem_append.mpr (Or.inl (List.mem_append.mpr
        (Or.inl (imageEvents_mem bucket t.image_url u hu0 hune k hk hkne))))
    · refine List.mem_append.mpr (Or.inl (List.mem_append.mpr (Or.inr ?_)))
      obtain ⟨q, hqmem, hin⟩ := List.mem_flatMap.mp huq
      apply List.mem_flatMap.mpr
      refine ⟨q, hqmem, ?_⟩
      rcases List.mem_append.mp hin with hq0 | hopt
      · exact List.mem_append.mpr (Or.inl (imageEvents_mem bucket q.image_url u hq0 hune k hk hkne))
      · obtain ⟨o, homem, ho0⟩ := List.mem_flatMap.mp hopt
        refine List.mem_append.mpr (Or.inr (List.mem_flatMap.mpr ⟨o, homem, ?_⟩))
        exact imageEvents_mem bucket o.image_url u ho0 hune k hk hkne
  · refine ⟨imageEvents bucket t.image_url ++ (testQuestions db t.test_id).flatMap (fun q =>
      imageEvents bucket q.image_url ++ (questionOptions db q.question_id).flatMap
        (fun o => imageEvents bucket o.image_url)), rfl, ?_⟩
    intro e he
    rcases List.mem_append.mp he with h0 | hq
    · exact imageEvents_shape bucket t.image_url e h0
    · obtain ⟨q, _, hin⟩ := List.mem_flatMap.mp hq
      rcases List.mem_append.mp hin with h1 | hopt
      · exact imageEvents_shape bucket q.image_url e h1
      · obtain ⟨o, _, h2⟩ := List.mem_flatMap.mp hopt
        exact imageEvents_shape bucket o.image_url e h2

theorem deleteTest_cascade_cleanup_witness :
    ∃ events db', deleteTest dbCascade "bucket" 1 1 = .ok (events, db') ∧
      ∀ q ∈ db'.questions, q.test_id ≠ 1 := by
  obtain ⟨events, db', hok, hq, _⟩ := deleteTest_cascade_cleanup dbCascade "bucket" 1 1
    { test_id := 1, teacher_id := 1, title := "C", description := none,
      image_url := some "plain-ref", status := TestStatus.DRAFT } rfl
  exact ⟨events, db', hok, hq⟩

/-- Claim C9 (on the intended validator): the cross-field check of
AnswerOptionCreate, as written, rejects a payload in which both
answer_text and image_url are missing, and accepts a payload carrying
either one. In the source the validator is dead code: it is decorated
with `@classmethod` above `@model_validator`, an ordering under which
pydantic v2 never registers it, so the empty payload is in fact accepted. -/
theorem check_text_or_image_rejects_empty_payload :
    check_text_or_image none none
      = .error "Either answer_text or image_url must be provided" ∧
    check_text_or_image (some "text") none = .ok () ∧
    check_text_or_image none (some "img") = .ok () :=
  ⟨rfl, rfl, rfl⟩

end EduTests
